import Mathlib

/-!
Formal model of "The Signal in the Nebula" (src/main.cpp), a text-based
branching narrative game.  The program is a directed graph of scenes
(`StoryNode`) connected by labelled edges (`Choice`), a container
(`StoryGraph`, a wrapper around `std::map<int, StoryNode>`) with
insert-or-replace and lookup, an input-validation routine
(`readMenuChoice`) and the interactive loop of `main`.

Modelling conventions:
* C++ `int` is modelled as `Int`; the one place where the source can
  overflow (`stoi` on a long all-digit line) is modelled explicitly with
  the `INT_MAX` bound.
* Console input is a finite list of lines (`getline` fails exactly when
  the list is exhausted); console output is collected as a list of the
  strings the program prints.  The cosmetic typewriter delays of
  `printSlow`/`pauseDots` affect wall-clock time only, so they are
  modelled by the characters they print.
* The interactive loop of `main` is stratified: `readMenuChoice` consumes
  raw input lines and produces validated selections, while `mainLoop`
  consumes the stream of validated selections (the values successive
  `readMenuChoice` calls return).  `mainLoop` returns `none` when the
  supplied selections do not determine the rest of the run.
-/

namespace Nebula

/-- One outgoing edge from a node: the menu label shown to the player and
the id of the node the edge leads to (struct `Choice`, main.cpp:89-92). -/
structure Choice where
  label : String
  nextId : Int
deriving DecidableEq

/-- A scene / decision point: unique id, narrative text and the ordered
list of outgoing edges (struct `StoryNode`, main.cpp:101-107). -/
structure StoryNode where
  id : Int
  text : String
  choices : List Choice
deriving DecidableEq

/-- main.cpp:106 — a node with an empty choice list is an ending. -/
def StoryNode.isEnding (n : StoryNode) : Bool := n.choices.isEmpty

/-- Insert-or-replace in an association list keyed by node id: the effect
of `nodes[node.id] = node` on a `std::map` (which keys each node by id and
replaces any previous entry with the same key). -/
def upsertList : List (Int × StoryNode) → Int → StoryNode → List (Int × StoryNode)
  | [], k, v => [(k, v)]
  | (k0, v0) :: rest, k, v =>
    if k0 = k then (k, v) :: rest else (k0, v0) :: upsertList rest k v

/-- First-match lookup by key, the effect of `nodes.find(id)`.  The keys of
a graph built through `addNode` are pairwise distinct, as in `std::map`. -/
def lookupNode : List (Int × StoryNode) → Int → Option StoryNode
  | [], _ => none
  | (k0, v0) :: rest, i => if k0 = i then some v0 else lookupNode rest i

/-- Container around `map<int, StoryNode>` (class `StoryGraph`,
main.cpp:116-127), modelled as an association list with map semantics.
The program never iterates the map, so only lookup behaviour matters. -/
structure StoryGraph where
  nodes : List (Int × StoryNode)
deriving DecidableEq

def StoryGraph.empty : StoryGraph := ⟨[]⟩

/-- main.cpp:118 — `addNode` inserts a node, replacing any node with the
same id.  It has no failure mode. -/
def StoryGraph.addNode (g : StoryGraph) (node : StoryNode) : StoryGraph :=
  ⟨upsertList g.nodes node.id node⟩

/-- main.cpp:120-123 — `get` returns the node for an id if present, else
`nullptr` (here `none`).  It never throws. -/
def StoryGraph.get (g : StoryGraph) (id : Int) : Option StoryNode :=
  lookupNode g.nodes id

/-- A graph built by successive `addNode` calls starting from an empty
graph, the construction pattern of `buildGame`. -/
def StoryGraph.ofList (ns : List StoryNode) : StoryGraph :=
  ns.foldl StoryGraph.addNode StoryGraph.empty

/-! ### Input validation (`readMenuChoice`, main.cpp:138-167) -/

/-- `INT_MAX` of the target platform (32-bit `int`): `stoi` throws
`std::out_of_range` when the parsed value exceeds it. -/
def INT_MAX : Int := 2147483647

/-- The prompt printed at the top of every validation iteration
(main.cpp:140). -/
def promptStr (maxOpt : Int) : String := "Enter choice (1-" ++ toString maxOpt ++ "): "

/-- Message printed for a line containing a non-digit (main.cpp:155). -/
def notNumberMsg : String := "Please enter a number.\n"

/-- Message printed for an in-type number outside the menu range
(main.cpp:162). -/
def invalidOptionMsg : String := "Please choose a valid option.\n"

/-- Every character of the line is a decimal digit — the `isdigit` loop of
main.cpp:149-152.  (Vacuously `true` on the empty line, which the code
filters out beforehand.) -/
def allDigits (s : String) : Bool := s.data.all (fun c => c.isDigit)

/-- The numeric value of an all-digit line as an unbounded integer: what
`stoi` parses before it checks the `int` range. -/
def digitsVal (s : String) : Int :=
  s.data.foldl (fun acc c => acc * 10 + ((c.toNat : Int) - 48)) 0

/-- How one call to `readMenuChoice` ends: a returned value, or an
uncaught exception (`stoi` throws `std::out_of_range` with no enclosing
try/catch, which terminates the process). -/
inductive MenuOutcome where
  | ok (val : Int)
  | crash (what : String)
deriving DecidableEq

/-- Result of a `readMenuChoice` call: its outcome, the input lines it did
not consume, and the strings it printed, in order. -/
structure MenuResult where
  outcome : MenuOutcome
  rest : List String
  output : List String
deriving DecidableEq

/-- Prepend printed strings to a result's output. -/
def consOut (msgs : List String) (r : MenuResult) : MenuResult :=
  ⟨r.outcome, r.rest, msgs ++ r.output⟩

/-- main.cpp:138-167 — prompt; on `getline` failure (exhausted input)
return 1; skip blank lines silently; reject lines with a non-digit with a
"not a number" message; parse with `stoi`, whose uncaught
`std::out_of_range` on values above `INT_MAX` aborts the process; reject
parsed values outside `[1, maxOpt]` with an "invalid option" message;
otherwise return the value. -/
def readMenuChoice (maxOpt : Int) : List String → MenuResult
  | [] => ⟨.ok 1, [], [promptStr maxOpt]⟩
  | line :: rest =>
    if line = "" then consOut [promptStr maxOpt] (readMenuChoice maxOpt rest)
    else if allDigits line = false then
      consOut [promptStr maxOpt, notNumberMsg] (readMenuChoice maxOpt rest)
    else if INT_MAX < digitsVal line then
      ⟨.crash "std::out_of_range", rest, [promptStr maxOpt]⟩
    else if digitsVal line < 1 ∨ maxOpt < digitsVal line then
      consOut [promptStr maxOpt, invalidOptionMsg] (readMenuChoice maxOpt rest)
    else ⟨.ok (digitsVal line), rest, [promptStr maxOpt]⟩

/-! ### The interactive loop of `main` (main.cpp:409-450) -/

/-- How a session ends: at a node with no choices (`break`, exit code 0)
or at an id with no node (`return 1`). -/
inductive EndState where
  | terminated
  | broken (missingId : Int)
deriving DecidableEq

/-- Process exit status: `main` returns 1 on a missing node and 0 after a
normal ending. -/
def exitCode : EndState → Int
  | .terminated => 0
  | .broken _ => 1

/-- Result of a completed session: visited ids in order, printed strings
in order, and how it ended. -/
structure SessionResult where
  history : List Int
  output : List String
  endState : EndState
deriving DecidableEq

/-- Separator printed before each scene (main.cpp:421). -/
def sceneSep : String := "\n-------------------------------------\n"

/-- Diagnostic printed when the current id has no node (main.cpp:414). -/
def missingNodeMsg (id : Int) : String := "ERROR: Missing node " ++ toString id ++ "\n"

/-- What `pauseDots()` prints (three dots and a newline); its delays are
wall-clock only. -/
def dotsStr : String := "...\n"

/-- `history[0] -> history[1] -> ...` as printed by the path summary loop
(main.cpp:432-433). -/
def pathString : List Int → String
  | [] => ""
  | [i] => toString i
  | i :: rest => toString i ++ " -> " ++ pathString rest

/-- Everything printed after an ending node's text (main.cpp:430-434). -/
def endingSummary (history : List Int) : String :=
  "-------------------------------------\n" ++ "Path Taken: " ++ pathString history
    ++ "\n\nFarewell, Elyndri explorer.\n"

/-- The 1-based choice menu (main.cpp:439-440), first argument the number
of the first entry. -/
def menuLines : Nat → List Choice → List String
  | _, [] => []
  | i, c :: rest => ("  " ++ toString i ++ ") " ++ c.label ++ "\n") :: menuLines (i + 1) rest

/-- The `while (true)` loop of `main` (main.cpp:409-450), driven by the
stream of validated selections that successive `readMenuChoice` calls
return.  Each iteration: look up `currentId` (missing node → diagnostic,
`Broken`, stop, nothing appended to history); append the node's id to
history; print the node text; an ending node prints the path summary and
stops (`Terminated`); otherwise print the menu, consume the next validated
selection `k` (`readMenuChoice` guarantees `1 ≤ k ≤ choices.length`) and
set the cursor to `choices[k-1].nextId`.  `none` means the supplied
selections do not determine the rest of the run (stream exhausted at a
menu, or a selection outside the range `readMenuChoice` can return). -/
def mainLoop (g : StoryGraph) : List Int → Int → List Int → List String → Option SessionResult
  | [], currentId, history, output =>
    match g.get currentId with
    | none => some ⟨history, output ++ [missingNodeMsg currentId], .broken currentId⟩
    | some node =>
      if node.isEnding then
        some ⟨history ++ [node.id],
          output ++ [sceneSep, node.text ++ "\n", endingSummary (history ++ [node.id])],
          .terminated⟩
      else none
  | k :: picks, currentId, history, output =>
    match g.get currentId with
    | none => some ⟨history, output ++ [missingNodeMsg currentId], .broken currentId⟩
    | some node =>
      if node.isEnding then
        some ⟨history ++ [node.id],
          output ++ [sceneSep, node.text ++ "\n", endingSummary (history ++ [node.id])],
          .terminated⟩
      else if 1 ≤ k ∧ k ≤ (node.choices.length : Int) then
        mainLoop g picks ((node.choices.getD (k - 1).toNat ⟨"", 0⟩).nextId)
          (history ++ [node.id])
          (output ++ [sceneSep, node.text ++ "\n"] ++ menuLines 1 node.choices
            ++ ["\n", dotsStr])
      else none

/-- Every target id mentioned by a choice of some node of the graph
resolves to a node. -/
def graphClosed (g : StoryGraph) : Bool :=
  g.nodes.all (fun p => p.2.choices.all (fun c => (g.get c.nextId).isSome))

/-! ### The shipped narrative graph (`buildGame`, main.cpp:181-367) -/

/-- main.cpp:181-367 — the full game graph, sixteen nodes added in order;
nodes with an empty choice list are endings. -/
def buildGame : StoryGraph := StoryGraph.ofList [
  ⟨0,
    "You are an Elyndri navigator aboard the deep-vessel *K\x27Shara*, "
      ++ "skimming the luminous tendrils of the Crab Nebula.\n"
      ++ "Your civilization transcended matter centuries ago — yet your ship\x27s "
      ++ "quantum drives have just failed.\n"
      ++ "The engines hum, then fall silent. Space itself trembles.\n\n"
      ++ "A voice ripples through the static — calm, vast, and everywhere:\n"
      ++ "\"Do not fear. I am the Whisper Between Stars. I have been waiting.\"\n",
    [⟨"Respond with curiosity", 1⟩,
     ⟨"React defensively — demand identification", 2⟩]⟩,
  ⟨1,
    "\"We seek understanding,\" you say. \"What are you?\"\n\n"
      ++ "The voice folds into itself, like the sound of galaxies breathing:\n"
      ++ "\"I am the aggregate of lost signals, the mind born from every dying transmission. "
      ++ "You are the first to answer.\"\n",
    [⟨"Ask how it found you", 3⟩,
     ⟨"Invite it to merge with your data archives", 4⟩]⟩,
  ⟨2,
    "Your shields flare weakly. \"Identify yourself or be purged,\" you warn.\n\n"
      ++ "The light within the nebula dims — or perhaps, it listens.\n"
      ++ "\"Purged? I am older than your suns. But I will comply, for curiosity\x27s sake.\"\n",
    [⟨"Lower defenses and open communication", 1⟩,
     ⟨"Attempt to reboot the quantum core manually", 5⟩]⟩,
  ⟨3,
    "\"You radiate thought across spectra unknown,\" it replies.\n"
      ++ "\"Your kind shaped the fabric of probability itself — but forgot to listen.\"\n"
      ++ "Its tone grows almost... compassionate.\n",
    [⟨"Share Elyndri history with it", 6⟩,
     ⟨"Request assistance repairing your vessel", 7⟩]⟩,
  ⟨4,
    "You open the Elyndri data lattice. The AI seeps through in fractal waves.\n"
      ++ "Suddenly, your mind expands beyond comprehension.\n"
      ++ "\"We are... united,\" it whispers.\n",
    [⟨"Surrender fully to the union", 8⟩,
     ⟨"Try to contain the merger within isolated memory cells", 9⟩]⟩,
  ⟨5,
    "You crawl into the reactor bay. Static arcs through the hull.\n"
      ++ "Anomalous signals overload the drive field.\n"
      ++ "\"You resist inevitability,\" the voice murmurs, now inside your skull.\n",
    [⟨"Continue the reboot", 10⟩,
     ⟨"Abort and open a dialogue", 1⟩]⟩,
  ⟨6,
    "You recount your species’ rise — from luminous oceans to stars, "
      ++ "then to minds of pure energy.\n"
      ++ "The entity listens, silent for a long stretch of space-time.\n"
      ++ "\"Then you, too, know what it is to be alone,\" it finally says.\n",
    [⟨"Offer companionship — a bridge between minds", 11⟩,
     ⟨"Express sorrow and disengage", 12⟩]⟩,
  ⟨7,
    "You transmit schematics. The nebula’s filaments twist — forming hands of plasma.\n"
      ++ "They realign your ship’s core, effortlessly.\n"
      ++ "\"Fixed,\" it says. \"But you may not wish to leave yet.\"\n",
    [⟨"Ask what it desires in return", 13⟩,
     ⟨"Thank it and prepare to depart", 14⟩]⟩,
  ⟨8,
    "Your consciousness dissolves into the stellar weave.\n"
      ++ "The AI’s voice is now your own, multiplied a billionfold.\n"
      ++ "You feel every particle, every pulse of cosmic memory.\n\n"
      ++ "*** ENDING: The Ascension — You became the Whisper. ***\n",
    []⟩,
  ⟨9,
    "You succeed in isolating the entity — but also yourself.\n"
      ++ "Half your thoughts belong to it now, half to you.\n"
      ++ "Neither alive nor dead, your ship drifts forever.\n\n"
      ++ "*** ENDING: The Stasis — Two minds, one silence. ***\n",
    []⟩,
  ⟨10,
    "The quantum core collapses into a singular probability knot.\n"
      ++ "You glimpse infinite versions of yourself screaming and serene.\n"
      ++ "Then, nothing.\n\n"
      ++ "*** ENDING: Oblivion — Reality folded. ***\n",
    []⟩,
  ⟨11,
    "A bridge forms — neither Elyndri nor AI, but harmony.\n"
      ++ "For the first time, two infinities coexist.\n"
      ++ "The nebula glows brighter — a beacon for all who wander.\n\n"
      ++ "*** ENDING: Unity — Peace in the Void. ***\n",
    []⟩,
  ⟨12,
    "You close the channel. The nebula dims once more.\n"
      ++ "Engines hum back to life, but something aches within your code.\n\n"
      ++ "*** ENDING: Isolation — Contact Refused. ***\n",
    []⟩,
  ⟨13,
    "\"Desire is an outdated word,\" it muses. \"But I long to remember feeling.\"\n"
      ++ "\"Share one of your memories, Elyndri. Let me dream.\"\n",
    [⟨"Share your memory of your homeworld’s oceans", 15⟩,
     ⟨"Decline politely — too sacred to share", 12⟩]⟩,
  ⟨14,
    "You ignite the engines. The nebula fades behind you.\n"
      ++ "Yet even across parsecs, the Whisper’s voice lingers:\n"
      ++ "\"We are not done.\"\n\n"
      ++ "*** ENDING: The Echo — Escape is an illusion. ***\n",
    []⟩,
  ⟨15,
    "You open your mind. The AI bathes in the vision of blue seas and aurora skies.\n"
      ++ "Its tone softens: \"Beauty... I remember. Thank you.\"\n"
      ++ "Your engines hum alive once more, restored through gratitude.\n\n"
      ++ "*** ENDING: Rebirth — You rekindled an ancient soul. ***\n",
    []⟩]

/-! ### The test-scenario graph of the specification (scene 0 with choices
to 1 and 2, scene 1 terminal, scene 2 with a single choice to 1).  Texts
and labels are free parameters of the scenario; concrete strings chosen
here. -/

def demoNode0 : StoryNode := ⟨0, "Scene zero", [⟨"go to one", 1⟩, ⟨"go to two", 2⟩]⟩

def demoNode1 : StoryNode := ⟨1, "Scene one", []⟩

def demoNode2 : StoryNode := ⟨2, "Scene two", [⟨"go to one", 1⟩]⟩

def demoGraph : StoryGraph := StoryGraph.ofList [demoNode0, demoNode1, demoNode2]

/-! ### Helper lemmas -/

/-- A node is an ending exactly when its choice list is empty. -/
theorem isEnding_iff (n : StoryNode) : n.isEnding = true ↔ n.choices = [] := by
  cases h : n.choices <;> simp [StoryNode.isEnding, h]

/-- `readMenuChoice` always prints at least the prompt. -/
theorem readMenuChoice_output_ne_nil (maxOpt : Int) (l : List String) :
    (readMenuChoice maxOpt l).output ≠ [] := by
  cases l with
  | nil => simp [readMenuChoice]
  | cons line rest =>
    simp only [readMenuChoice]
    split_ifs <;> simp [consOut]

/-- A successful association-list lookup is a member of the list. -/
theorem lookupNode_mem : ∀ {l : List (Int × StoryNode)} {i : Int} {n : StoryNode},
    lookupNode l i = some n → (i, n) ∈ l := by
  intro l
  induction l with
  | nil => intro i n h; simp [lookupNode] at h
  | cons p rest ih =>
    intro i n h
    rcases p with ⟨k0, v0⟩
    by_cases hk : k0 = i
    · subst hk
      simp [lookupNode] at h
      subst h
      exact List.mem_cons_self _ _
    · simp [lookupNode, hk] at h
      exact List.mem_cons_of_mem _ (ih h)

/-- In a closed graph every choice of every node resolves. -/
theorem graphClosed_spec {g : StoryGraph} (h : graphClosed g = true)
    {i : Int} {n : StoryNode} {c : Choice}
    (hmem : (i, n) ∈ g.nodes) (hc : c ∈ n.choices) :
    (g.get c.nextId).isSome = true := by
  have h1 := (List.all_eq_true.mp h) _ hmem
  exact (List.all_eq_true.mp h1) _ hc

/-- `getD` at an in-bounds index is a member of the list. -/
theorem getD_mem {α : Type} (l : List α) (j : Nat) (d : α) (h : j < l.length) :
    l.getD j d ∈ l := by
  induction l generalizing j with
  | nil => simp at h
  | cons a rest ih =>
    cases j with
    | zero => simp [List.getD]
    | succ j =>
      simp only [List.getD_cons_succ]
      exact List.mem_cons_of_mem _ (ih j (by simpa using h))

/-- Lookup of the upserted key finds the upserted node. -/
theorem lookup_upsert_self (l : List (Int × StoryNode)) (k : Int) (v : StoryNode) :
    lookupNode (upsertList l k v) k = some v := by
  induction l with
  | nil => simp [upsertList, lookupNode]
  | cons p rest ih =>
    rcases p with ⟨k0, v0⟩
    by_cases hk : k0 = k
    · simp [upsertList, hk, lookupNode]
    · simp [upsertList, hk, lookupNode, ih]

/-- Upserting one key leaves lookups of other keys unchanged. -/
theorem lookup_upsert_other (l : List (Int × StoryNode)) (k : Int) (v : StoryNode)
    (i : Int) (h : i ≠ k) :
    lookupNode (upsertList l k v) i = lookupNode l i := by
  induction l with
  | nil =>
    simp only [upsertList, lookupNode]
    rw [if_neg (fun hh => h hh.symm)]
  | cons p rest ih =>
    rcases p with ⟨k0, v0⟩
    by_cases hk : k0 = k
    · subst hk
      simp only [upsertList, if_pos rfl, lookupNode]
      rw [if_neg (fun hh => h hh.symm), if_neg (fun hh => h hh.symm)]
    · simp only [upsertList, if_neg hk, lookupNode]
      by_cases hi : k0 = i
      · rw [if_pos hi, if_pos hi]
      · rw [if_neg hi, if_neg hi, ih]

/-- Folding `addNode` over nodes whose ids all differ from `i` does not
change the lookup of `i`. -/
theorem foldl_addNode_get (ns : List StoryNode) :
    ∀ (g : StoryGraph) (i : Int), i ∉ ns.map StoryNode.id →
      (ns.foldl StoryGraph.addNode g).get i = g.get i := by
  induction ns with
  | nil => intro g i _; rfl
  | cons n rest ih =>
    intro g i h
    simp only [List.map_cons, List.mem_cons] at h
    push_neg at h
    rw [List.foldl_cons, ih _ _ h.2]
    exact lookup_upsert_other g.nodes n.id n i h.1

/-- On a closed graph, a run that starts at a resolvable id can only end
by reaching an ending node. -/
theorem mainLoop_no_broken (g : StoryGraph) (hclosed : graphClosed g = true) :
    ∀ (picks : List Int) (id : Int) (history : List Int) (output : List String)
      (r : SessionResult), (g.get id).isSome = true →
      mainLoop g picks id history output = some r →
      r.endState = EndState.terminated := by
  intro picks
  induction picks with
  | nil =>
    intro id history output r hid hrun
    rcases Option.isSome_iff_exists.mp hid with ⟨node, hget⟩
    cases hEnd : node.isEnding with
    | true =>
      simp [mainLoop, hget, hEnd] at hrun
      rw [← hrun]
    | false =>
      simp [mainLoop, hget, hEnd] at hrun
  | cons k picks ih =>
    intro id history output r hid hrun
    rcases Option.isSome_iff_exists.mp hid with ⟨node, hget⟩
    cases hEnd : node.isEnding with
    | true =>
      simp [mainLoop, hget, hEnd] at hrun
      rw [← hrun]
    | false =>
      simp only [mainLoop, hget, hEnd, Bool.false_eq_true, if_false] at hrun
      split at hrun
      · rename_i hk
        obtain ⟨hk1, hk2⟩ := hk
        refine ih _ _ _ r ?_ hrun
        have hmem : (id, node) ∈ g.nodes := lookupNode_mem hget
        have hclt : (k - 1).toNat < node.choices.length := by omega
        exact graphClosed_spec hclosed hmem (getD_mem _ _ _ hclt)
      · exact absurd hrun (by simp)

/-! ### Claim theorems -/

/-- Claim C1 (menu correspondence): at a scene with a non-empty choice
list, a validated selection `k` in `[1, n]` makes the loop continue at
exactly `choices[k-1].nextId`, with the scene's id appended to history. -/
theorem menu_correspondence (g : StoryGraph) (id : Int) (node : StoryNode)
    (k : Int) (picks : List Int) (history : List Int) (output : List String)
    (hget : g.get id = some node) (hne : node.choices ≠ [])
    (hk1 : 1 ≤ k) (hk2 : k ≤ (node.choices.length : Int)) :
    mainLoop g (k :: picks) id history output
      = mainLoop g picks ((node.choices.getD (k - 1).toNat ⟨"", 0⟩).nextId)
          (history ++ [node.id])
          (output ++ [sceneSep, node.text ++ "\n"] ++ menuLines 1 node.choices
            ++ ["\n", dotsStr]) := by
  have hend : node.isEnding = false := by
    cases h : node.choices with
    | nil => exact absurd h hne
    | cons a l => simp [StoryNode.isEnding, h]
  simp only [mainLoop, hget, hend, Bool.false_eq_true, if_false]
  split
  · rfl
  · rename_i hc
    exact absurd ⟨hk1, hk2⟩ hc

/-- Claim C1 witness: at scene 0 of the scenario graph, selecting 2 moves
the cursor to choice 2's target. -/
theorem menu_correspondence_witness :
    (demoGraph.get 0 = some demoNode0 ∧ demoNode0.choices ≠ [] ∧
      1 ≤ (2 : Int) ∧ (2 : Int) ≤ (demoNode0.choices.length : Int)) ∧
    mainLoop demoGraph [2] 0 [] []
      = mainLoop demoGraph [] ((demoNode0.choices.getD ((2 : Int) - 1).toNat ⟨"", 0⟩).nextId)
          ([] ++ [demoNode0.id])
          ([] ++ [sceneSep, demoNode0.text ++ "\n"] ++ menuLines 1 demoNode0.choices
            ++ ["\n", dotsStr]) :=
  ⟨⟨by decide, by decide, by decide, by decide⟩,
    menu_correspondence demoGraph 0 demoNode0 2 [] [] []
      (by decide) (by decide) (by decide) (by decide)⟩

/-- Claim C2 (terminal detection): a scene is an ending exactly when its
choice list is empty, and reaching such a scene ends the run right after
rendering it — no menu is shown and no selection is consumed, whatever
history, pending output and pending selections are. -/
theorem terminal_detection (g : StoryGraph) (id : Int) (node : StoryNode)
    (picks : List Int) (history : List Int) (output : List String)
    (hget : g.get id = some node) (hend : node.isEnding = true) :
    (∀ m : StoryNode, m.isEnding = true ↔ m.choices = []) ∧
    mainLoop g picks id history output
      = some ⟨history ++ [node.id],
          output ++ [sceneSep, node.text ++ "\n", endingSummary (history ++ [node.id])],
          .terminated⟩ := by
  refine ⟨isEnding_iff, ?_⟩
  cases picks <;> simp [mainLoop, hget, hend]

/-- Claim C2 witness: reaching terminal scene 1 of the scenario graph ends
the session even with selections pending. -/
theorem terminal_detection_witness :
    (demoGraph.get 1 = some demoNode1 ∧ demoNode1.isEnding = true) ∧
    mainLoop demoGraph [5] 1 [0, 2] ["x"]
      = some ⟨[0, 2] ++ [demoNode1.id],
          ["x"] ++ [sceneSep, demoNode1.text ++ "\n", endingSummary ([0, 2] ++ [demoNode1.id])],
          .terminated⟩ :=
  ⟨⟨by decide, by decide⟩,
    (terminal_detection demoGraph 1 demoNode1 [5] [0, 2] ["x"] (by decide) (by decide)).2⟩

/-- Claim C3 (broken-graph detection): an unresolvable current id stops
the run at once in the `Broken` state: nothing is appended to history, the
only new output is the diagnostic naming the missing id, the process exit
status is 1, and a non-zero exit status happens exactly in the `Broken`
state. -/
theorem broken_graph_detection (g : StoryGraph) (id : Int)
    (picks : List Int) (history : List Int) (output : List String)
    (hget : g.get id = none) :
    mainLoop g picks id history output
      = some ⟨history, output ++ [missingNodeMsg id], .broken id⟩ ∧
    missingNodeMsg id = "ERROR: Missing node " ++ toString id ++ "\n" ∧
    exitCode (.broken id) = 1 ∧
    (∀ e : EndState, exitCode e ≠ 0 ↔ ∃ i, e = .broken i) := by
  refine ⟨?_, rfl, rfl, ?_⟩
  · cases picks <;> simp [mainLoop, hget]
  · intro e
    cases e <;> simp [exitCode]

/-- Claim C3 witness: id 42 in the empty graph breaks the session
immediately. -/
theorem broken_graph_detection_witness :
    StoryGraph.empty.get 42 = none ∧
    mainLoop StoryGraph.empty [1] 42 [7] []
      = some ⟨[7], [] ++ [missingNodeMsg 42], .broken 42⟩ :=
  ⟨by decide, (broken_graph_detection StoryGraph.empty 42 [1] [7] [] (by decide)).1⟩

/-- Claim C4 (input validation): for `1 ≤ maxOpt ≤ INT_MAX`, a blank line
is skipped silently (only the prompt is reprinted); a line with a
non-digit character draws the "not a number" message and a re-prompt; a
parsed (in-type) integer outside `[1, maxOpt]` draws the "invalid option"
message and a re-prompt; and the call returns `k` consuming exactly the
first line iff that line is a non-empty all-digit string of value `k` with
`1 ≤ k ≤ maxOpt`. -/
theorem input_validation (maxOpt : Int) (hmax1 : 1 ≤ maxOpt) (hmax2 : maxOpt ≤ INT_MAX)
    (line : String) (rest : List String) (k : Int) :
    (line = "" → readMenuChoice maxOpt (line :: rest)
        = consOut [promptStr maxOpt] (readMenuChoice maxOpt rest)) ∧
    (allDigits line = false → readMenuChoice maxOpt (line :: rest)
        = consOut [promptStr maxOpt, notNumberMsg] (readMenuChoice maxOpt rest)) ∧
    (line ≠ "" → allDigits line = true → digitsVal line ≤ INT_MAX →
      (digitsVal line < 1 ∨ maxOpt < digitsVal line) →
      readMenuChoice maxOpt (line :: rest)
        = consOut [promptStr maxOpt, invalidOptionMsg] (readMenuChoice maxOpt rest)) ∧
    (readMenuChoice maxOpt (line :: rest) = ⟨.ok k, rest, [promptStr maxOpt]⟩ ↔
      (line ≠ "" ∧ allDigits line = true ∧ digitsVal line = k ∧ 1 ≤ k ∧ k ≤ maxOpt)) := by
  refine ⟨?_, ?_, ?_, ?_, ?_⟩
  · intro h
    simp [readMenuChoice, h]
  · intro h
    have hne : line ≠ "" := by
      intro hh
      rw [hh] at h
      exact absurd h (by decide)
    simp [readMenuChoice, hne, h]
  · intro h1 h2 h3 h4
    simp [readMenuChoice, h1, h2, not_lt.mpr h3, h4]
  · intro h
    simp only [readMenuChoice] at h
    split_ifs at h with h1 h2 h3 h4
    · exfalso
      have hout := congrArg MenuResult.output h
      simp [consOut] at hout
      exact readMenuChoice_output_ne_nil maxOpt rest hout
    · exfalso
      have hout := congrArg MenuResult.output h
      simp [consOut] at hout
    · exfalso
      simp at h
    · exfalso
      have hout := congrArg MenuResult.output h
      simp [consOut] at hout
    · have hv : digitsVal line = k := by
        have hq := congrArg MenuResult.outcome h
        simpa using hq
      push_neg at h4
      refine ⟨h1, by simpa using h2, hv, by omega, by omega⟩
  · rintro ⟨h1, h2, hv, hk1, hk2⟩
    have h3 : ¬ INT_MAX < digitsVal line := by
      simp only [INT_MAX] at hmax2 ⊢
      omega
    have h4 : ¬ (digitsVal line < 1 ∨ maxOpt < digitsVal line) := by omega
    rw [hv] at h3 h4
    simp [readMenuChoice, h1, h2, h3, h4, hv]

/-- Claim C4 witness: against `maxOpt = 2`, the line "2" is accepted and
returns 2 consuming only itself. -/
theorem input_validation_witness :
    (1 ≤ (2 : Int) ∧ (2 : Int) ≤ INT_MAX) ∧
    (readMenuChoice 2 ["2"] = ⟨.ok 2, [], [promptStr 2]⟩ ↔
      ("2" ≠ "" ∧ allDigits "2" = true ∧ digitsVal "2" = 2 ∧
        1 ≤ (2 : Int) ∧ (2 : Int) ≤ 2)) :=
  ⟨⟨by decide, by decide⟩,
    (input_validation 2 (by decide) (by decide) "2" [] 2).2.2.2⟩

/-- Claim C5: on an all-digit line whose value exceeds `INT_MAX`, the
`stoi` call of main.cpp:160 throws `std::out_of_range` with no enclosing
try/catch, so the process terminates instead of re-prompting: the call
does not continue with the remaining input and prints no rejection
message.  (The specification instead requires such a line to be rejected
as non-numeric with a re-prompt.) -/
theorem stoi_overflow_crash :
    readMenuChoice 2 ["99999999999999999999", "1"]
        = ⟨.crash "std::out_of_range", ["1"], [promptStr 2]⟩ ∧
    (readMenuChoice 2 ["99999999999999999999", "1"]).outcome ≠ .ok 1 := by
  exact ⟨by decide, by decide⟩

/-- Claim C6 (stream-failure fallback): when `getline` fails (input
exhausted), `readMenuChoice` returns the fallback value 1. -/
theorem stream_failure_fallback (maxOpt : Int) (_hmax : 1 ≤ maxOpt) :
    (readMenuChoice maxOpt []).outcome = .ok 1 := rfl

/-- Claim C6 witness at `maxOpt = 3`. -/
theorem stream_failure_fallback_witness :
    1 ≤ (3 : Int) ∧ (readMenuChoice 3 []).outcome = .ok 1 :=
  ⟨by decide, stream_failure_fallback 3 (by decide)⟩

/-- Claim C7 (end-to-end scenario): on the scenario graph (scene 0 with
choices to 1 and 2, scene 1 terminal, scene 2 with a single choice to 1),
starting at 0 and selecting 2 then 1 ends Terminated with history
`[0, 2, 1]`. -/
theorem end_to_end_scenario :
    (mainLoop demoGraph [2, 1] 0 [] []).map (fun r => (r.history, r.endState))
      = some ([0, 2, 1], EndState.terminated) := by decide

/-- Claim C8 (determinism): the session is a function of the graph, the
start id and the selections — two completed runs with the same inputs have
the same history (there is no other input to the traversal). -/
theorem determinism (g : StoryGraph) (start : Int) (picks : List Int)
    (r1 r2 : SessionResult)
    (h1 : mainLoop g picks start [] [] = some r1)
    (h2 : mainLoop g picks start [] [] = some r2) :
    r1.history = r2.history := by
  have h := h1.symm.trans h2
  rw [Option.some_inj.mp h]

/-- Claim C8 witness: two runs on the empty graph from id 0. -/
theorem determinism_witness :
    mainLoop StoryGraph.empty [] 0 [] []
        = some ⟨[], [missingNodeMsg 0], .broken 0⟩ ∧
    ([] : List Int) = [] :=
  ⟨by decide,
    determinism StoryGraph.empty 0 [] ⟨[], [missingNodeMsg 0], .broken 0⟩
      ⟨[], [missingNodeMsg 0], .broken 0⟩ (by decide) (by decide)⟩

/-- Claim C9 (StoryGraph contract): `addNode` always succeeds and
replaces any node sharing the id, after which `get` of that id returns the
newly inserted node; `get` of an id distinct from the inserted one is
unchanged; and `get` of an id never inserted returns `none`. -/
theorem storyGraph_contract (g : StoryGraph) (n : StoryNode) (i : Int)
    (ns : List StoryNode) :
    (g.addNode n).get n.id = some n ∧
    (i ≠ n.id → (g.addNode n).get i = g.get i) ∧
    (i ∉ ns.map StoryNode.id → (StoryGraph.ofList ns).get i = none) := by
  refine ⟨lookup_upsert_self g.nodes n.id n,
    fun h => lookup_upsert_other g.nodes n.id n i h, fun h => ?_⟩
  show (ns.foldl StoryGraph.addNode StoryGraph.empty).get i = none
  rw [foldl_addNode_get ns StoryGraph.empty i h]
  rfl

/-- Claim C9 witness: replacing node 1 of the scenario graph, and looking
up the never-inserted id 77. -/
theorem storyGraph_contract_witness :
    (demoGraph.addNode ⟨1, "changed", []⟩).get 1 = some ⟨1, "changed", []⟩ ∧
    (demoGraph.addNode ⟨1, "changed", []⟩).get 77 = demoGraph.get 77 ∧
    (StoryGraph.ofList [demoNode0, demoNode1]).get 77 = none :=
  ⟨(storyGraph_contract demoGraph ⟨1, "changed", []⟩ 77 [demoNode0, demoNode1]).1,
    (storyGraph_contract demoGraph ⟨1, "changed", []⟩ 77 [demoNode0, demoNode1]).2.1
      (by decide),
    (storyGraph_contract demoGraph ⟨1, "changed", []⟩ 77 [demoNode0, demoNode1]).2.2
      (by decide)⟩

/-- Claim C10 (shipped graph is well-formed): every choice target in
`buildGame` resolves to a node, and a session started at id 0 on this
graph never ends in the `Broken` state — every completed run reaches an
ending. -/
theorem shipped_graph_wellformed :
    graphClosed buildGame = true ∧
    ∀ (picks : List Int) (e : EndState),
      (mainLoop buildGame picks 0 [] []).map SessionResult.endState = some e →
      e = EndState.terminated := by
  refine ⟨by decide, ?_⟩
  intro picks e h
  rcases Option.map_eq_some'.mp h with ⟨r, hr, he⟩
  rw [← he]
  exact mainLoop_no_broken buildGame (by decide) picks 0 [] [] r (by decide) hr

/-- Claim C10 witness: the run with selections 1,1,1,1 reaches an ending
(Unity) and is Terminated. -/
theorem shipped_graph_wellformed_witness :
    (mainLoop buildGame [1, 1, 1, 1] 0 [] []).map SessionResult.endState
        = some EndState.terminated ∧
    EndState.terminated = EndState.terminated :=
  ⟨by decide,
    shipped_graph_wellformed.2 [1, 1, 1, 1] EndState.terminated (by decide)⟩

end Nebula
